import Mathlib

/-
Shallow embedding of the MFT entry decoder of analyzeMFT
(src/parsers/mft.py, class MFTEntry).

A raw entry buffer is a list of byte values; the BytesIO stream over it is
modelled by passing explicit positions.  Parsers that raise exceptions in
the source (caught by the enclosing parse_structure or by a local
try/except) are modelled as Option-valued functions.

The binary layouts of the construct structures (src/structures/mft.py) and
the WindowsTime converter (src/utils/time.py) are imported by
src/parsers/mft.py but their sources are not part of the repository
snapshot; those definitions are modelled from the spec and are marked as
such in their doc comments.
-/

/-- Value of a little-endian byte sequence. -/
def leVal : List Nat → Nat
  | [] => 0
  | b :: bs => b + 256 * leVal bs

/-- Little-endian integer formed by `width` bytes of `buf` starting at `pos`
(total function; reads short at the end of the buffer). -/
def leSlice (buf : List Nat) (pos width : Nat) : Nat :=
  leVal ((buf.drop pos).take width)

/-- Exact read of `width` bytes, as performed by construct's parse_stream:
fails (raises in the source) when fewer than `width` bytes remain. -/
def readBytesExact (buf : List Nat) (pos width : Nat) : Option (List Nat) :=
  if pos + width ≤ buf.length then some ((buf.drop pos).take width) else none

/-- Exact little-endian integer read. -/
def readUInt (buf : List Nat) (pos width : Nat) : Option Nat :=
  (readBytesExact buf pos width).map leVal

/-- BytesIO.read semantics: returns at most `width` bytes, short (possibly
empty) reads at end of buffer do not fail. -/
def bytesAvail (buf : List Nat) (pos width : Nat) : List Nat :=
  (buf.drop pos).take width

/-- Pair consecutive bytes into little-endian 16-bit code units; fails on an
odd number of bytes (Python: UnicodeDecodeError, truncated data). -/
def utf16Units : List Nat → Option (List Nat)
  | [] => some []
  | [_] => none
  | lo :: hi :: rest => (utf16Units rest).map fun us => (lo + 256 * hi) :: us

/-- Validity of a UTF-16 code-unit sequence: every high surrogate must be
followed by a low surrogate and no low surrogate may appear alone. -/
def utf16ValidUnits : List Nat → Bool
  | [] => true
  | [u] => decide (u < 0xD800 ∨ 0xE000 ≤ u)
  | u :: v :: rest =>
    if 0xD800 ≤ u ∧ u < 0xDC00 then
      decide (0xDC00 ≤ v ∧ v < 0xE000) && utf16ValidUnits rest
    else if 0xDC00 ≤ u ∧ u < 0xE000 then
      false
    else
      utf16ValidUnits (v :: rest)

/-- Byte-swap consecutive pairs (big-endian UTF-16 payload after a FE FF
byte-order mark). -/
def utf16SwapPairs : List Nat → List Nat
  | lo :: hi :: rest => hi :: lo :: utf16SwapPairs rest
  | l => l

/-- Python bytes.decode with the utf-16 codec: an optional byte-order mark
selects the endianness (little-endian when absent), decoding fails on an odd
byte count or invalid surrogate pairing.  The result is kept as the list of
decoded code units. -/
def utf16Decode (bs : List Nat) : Option (List Nat) :=
  match bs with
  | 0xFF :: 0xFE :: rest =>
    (utf16Units rest).bind fun us => if utf16ValidUnits us then some us else none
  | 0xFE :: 0xFF :: rest =>
    (utf16Units (utf16SwapPairs rest)).bind fun us =>
      if utf16ValidUnits us then some us else none
  | rest =>
    (utf16Units rest).bind fun us => if utf16ValidUnits us then some us else none

/-- Microseconds from 1601-01-01T00:00:00Z (exclusive upper bound) to the
end of the representable calendar range (year 9999): 3067671 days of
86400000000 microseconds each. -/
def maxCalendarMicros : Nat := 3067671 * 86400000000

/-- Modelled from the spec: WindowsTime.parse (src/utils/time.py) is
imported by src/parsers/mft.py but its source is not under src/.  Per spec
section 4.1 the converter is pure arithmetic, EPOCH_1601 plus raw_value
100-nanosecond ticks, truncated to microseconds, always UTC, and yields the
field-local failure InvalidTimestamp (here: none) when the value falls
outside the representable calendar range.  A timestamp is represented by
its microsecond count since 1601-01-01T00:00:00Z. -/
def windowsTimeParse (raw : Nat) : Option Nat :=
  if raw / 10 < maxCalendarMicros then some (raw / 10) else none

/-- Calendar rendering of a timestamp (UTC). -/
structure CivilDateTime where
  year : Int
  month : Nat
  day : Nat
  hour : Nat
  minute : Nat
  second : Nat
  microsecond : Nat
deriving DecidableEq, Repr

/-- Proleptic Gregorian civil date from a count of days since 1970-01-01
(days-from-civil inverse, era-based arithmetic). -/
def civilFromDays (z : Int) : Int × Int × Int :=
  let zs := z + 719468
  let era := (if 0 ≤ zs then zs else zs - 146096) / 146097
  let doe := zs - era * 146097
  let yoe := (doe - doe / 1460 + doe / 36524 - doe / 146096) / 365
  let y := yoe + era * 400
  let doy := doe - (365 * yoe + yoe / 4 - yoe / 100)
  let mp := (5 * doy + 2) / 153
  let d := doy - (153 * mp + 2) / 5 + 1
  let m := if mp < 10 then mp + 3 else mp - 9
  (if m ≤ 2 then y + 1 else y, m, d)

/-- Calendar rendering of a microsecond count since 1601-01-01T00:00:00Z. -/
def microsToCivil (m : Nat) : CivilDateTime :=
  let day : Nat := m / 86400000000
  let rem : Nat := m % 86400000000
  let c := civilFromDays ((day : Int) - 134774)
  { year := c.1
    month := c.2.1.toNat
    day := c.2.2.toNat
    hour := rem / 3600000000
    minute := rem % 3600000000 / 60000000
    second := rem % 60000000 / 1000000
    microsecond := rem % 1000000 }

/-- Entry signature classification (_parse_entry_header, lines 394-399). -/
inductive Signature
  | FILE
  | BAAD
  | CRPT
deriving DecidableEq, Repr

/-- MFT entry header, after _clean_transform strips the Raw fields.
Modelled from the spec: the construct structure MFTEntryHeader lives in
src/structures/mft.py, which is not under src/; the fixed little-endian
layout is the table of spec section 6 (48 bytes, record_number at offset
44). -/
structure MFTEntryHeader where
  signature : Signature
  fixupOffset : Nat
  fixupCount : Nat
  logFileSequenceNumber : Nat
  sequenceNumber : Nat
  referenceCount : Nat
  firstAttributeOffset : Nat
  active : Bool
  hasIndex : Bool
  usedSize : Nat
  totalSize : Nat
  baseSegmentNumber : Nat
  baseSequenceNumber : Nat
  firstAttributeId : Nat
  recordNumber : Nat
deriving DecidableEq, Repr

/-- MFTEntry._parse_entry_header: one fixed-layout read of 48 bytes at the
start of the stream, then classification of the raw 4-byte magic into
FILE (0x454c4946), BAAD (0x44414142) or CRPT.  Construct raises when the
buffer is shorter than the structure, so the parse fails exactly when fewer
than 48 bytes are available. -/
def parseEntryHeader (buf : List Nat) : Option MFTEntryHeader :=
  if 48 ≤ buf.length then
    let rawSig := leSlice buf 0 4
    some
      { signature :=
          if rawSig = 0x454c4946 then Signature.FILE
          else if rawSig = 0x44414142 then Signature.BAAD
          else Signature.CRPT
        fixupOffset := leSlice buf 4 2
        fixupCount := leSlice buf 6 2
        logFileSequenceNumber := leSlice buf 8 8
        sequenceNumber := leSlice buf 16 2
        referenceCount := leSlice buf 18 2
        firstAttributeOffset := leSlice buf 20 2
        active := (leSlice buf 22 2).testBit 0
        hasIndex := (leSlice buf 22 2).testBit 1
        usedSize := leSlice buf 24 4
        totalSize := leSlice buf 28 4
        baseSegmentNumber := leSlice buf 32 6
        baseSequenceNumber := leSlice buf 38 2
        firstAttributeId := leSlice buf 40 2
        recordNumber := leSlice buf 44 4 }
  else none

/-- Attribute type codes.  Modelled from the spec: the construct enum
MFTAttributeTypeCode lives in src/structures/mft.py, not under src/; per
spec section 4.2 the known 32-bit values map to the closed set, the
sentinel 0xFFFFFFFF maps to END_OF_ATTRIBUTES and unmapped values become
UNKNOWN(raw). -/
inductive AttributeTypeCode
  | standardInformation
  | attributeList
  | fileName
  | objectId
  | securityDescriptor
  | volumeName
  | volumeInformation
  | data
  | indexRoot
  | indexAllocation
  | endOfAttributes
  | unknown (raw : Nat)
deriving DecidableEq, Repr

/-- Mapping of a raw 32-bit value to an attribute type code. -/
def typeCodeOfVal (v : Nat) : AttributeTypeCode :=
  if v = 0x10 then AttributeTypeCode.standardInformation
  else if v = 0x20 then AttributeTypeCode.attributeList
  else if v = 0x30 then AttributeTypeCode.fileName
  else if v = 0x40 then AttributeTypeCode.objectId
  else if v = 0x50 then AttributeTypeCode.securityDescriptor
  else if v = 0x60 then AttributeTypeCode.volumeName
  else if v = 0x70 then AttributeTypeCode.volumeInformation
  else if v = 0x80 then AttributeTypeCode.data
  else if v = 0x90 then AttributeTypeCode.indexRoot
  else if v = 0xA0 then AttributeTypeCode.indexAllocation
  else if v = 0xFFFFFFFF then AttributeTypeCode.endOfAttributes
  else AttributeTypeCode.unknown v

/-- MFTAttributeTypeCode.parse_stream: a four-byte little-endian read. -/
def parseTypeCode (buf : List Nat) (pos : Nat) : Option AttributeTypeCode :=
  (readUInt buf pos 4).map typeCodeOfVal

/-- Lowercased name of a type code, as produced by TypeCode.lower() on the
construct enum string. -/
def typeKeyName : AttributeTypeCode → String
  | AttributeTypeCode.standardInformation => "standard_information"
  | AttributeTypeCode.attributeList => "attribute_list"
  | AttributeTypeCode.fileName => "file_name"
  | AttributeTypeCode.objectId => "object_id"
  | AttributeTypeCode.securityDescriptor => "security_descriptor"
  | AttributeTypeCode.volumeName => "volume_name"
  | AttributeTypeCode.volumeInformation => "volume_information"
  | AttributeTypeCode.data => "data"
  | AttributeTypeCode.indexRoot => "index_root"
  | AttributeTypeCode.indexAllocation => "index_allocation"
  | AttributeTypeCode.endOfAttributes => "end_of_attributes"
  | AttributeTypeCode.unknown raw => "unknown_" ++ toString raw

/-- The membership test of MFTEntry.parse, line 473: attribute_type.lower()
is a key of the entry container exactly for the ten attribute-type keys set
up by MFTEntry.__init__ (the container's other keys, header and the
bookkeeping fields, never coincide with a lowercased type-code name). -/
def typeKey (tc : AttributeTypeCode) : Option String :=
  match tc with
  | AttributeTypeCode.endOfAttributes => none
  | AttributeTypeCode.unknown _ => none
  | t => some (typeKeyName t)

/-- Resident-form fields of an attribute header (spec section 6:
value_length(4) value_offset(2) resident_flags(1) after the 16 common
bytes). -/
structure ResidentForm where
  valueLength : Nat
  valueOffset : Nat
  residentFlags : Nat
deriving DecidableEq, Repr

/-- Common attribute header.  Modelled from the spec: MFTAttributeHeader
lives in src/structures/mft.py, not under src/; the common 16-byte prefix
and the resident-form tail are the layout of spec section 6, and per spec
section 3 the NON_RESIDENT form carries no further fields used by the
decoder.  `form` is some exactly when form_code = 0. -/
structure MFTAttributeHeader where
  typeCode : AttributeTypeCode
  recordLength : Nat
  formCode : Nat
  nameLength : Nat
  nameOffset : Nat
  flags : Nat
  attributeId : Nat
  form : Option ResidentForm
  name : Option (List Nat)
deriving DecidableEq, Repr

/-- Construct part of the attribute header read (before the name logic of
_parse_attribute_header): 16 common bytes, plus the 7 resident-form bytes
when form_code = 0. -/
def parseAttributeHeaderStruct (buf : List Nat) (pos : Nat) : Option MFTAttributeHeader :=
  if pos + 16 ≤ buf.length then
    if leSlice buf (pos + 8) 1 = 0 then
      if pos + 23 ≤ buf.length then
        some
          { typeCode := typeCodeOfVal (leSlice buf pos 4)
            recordLength := leSlice buf (pos + 4) 4
            formCode := leSlice buf (pos + 8) 1
            nameLength := leSlice buf (pos + 9) 1
            nameOffset := leSlice buf (pos + 10) 2
            flags := leSlice buf (pos + 12) 2
            attributeId := leSlice buf (pos + 14) 2
            form := some
              { valueLength := leSlice buf (pos + 16) 4
                valueOffset := leSlice buf (pos + 20) 2
                residentFlags := leSlice buf (pos + 22) 1 }
            name := none }
      else none
    else
      some
        { typeCode := typeCodeOfVal (leSlice buf pos 4)
          recordLength := leSlice buf (pos + 4) 4
          formCode := leSlice buf (pos + 8) 1
          nameLength := leSlice buf (pos + 9) 1
          nameOffset := leSlice buf (pos + 10) 2
          flags := leSlice buf (pos + 12) 2
          attributeId := leSlice buf (pos + 14) 2
          form := none
          name := none }
  else none

/-- MFTEntry._parse_attribute_header (lines 329-350).  When NameLength > 0
the source computes the read count as NameLength * 2. — a float literal —
so stream.read raises TypeError, the bare except at line 346 fires and the
Name is stored as None; when NameLength = 0 the Name is None as well.  In
either case the header itself is returned. -/
def parseAttributeHeader (buf : List Nat) (pos : Nat) : Option MFTAttributeHeader :=
  match parseAttributeHeaderStruct buf pos with
  | none => none
  | some h =>
    if 0 < h.nameLength then
      some { h with name := none }
    else
      some { h with name := none }

/-- The name read that _parse_attribute_header declares (spec section 4.3):
seek to entry_start + name_offset, read name_length UTF-16 code units
(stream.read returns short at end of buffer), decode.  Kept separate from
parseAttributeHeader so the divergence introduced by the float read count
can be stated. -/
def attributeNameAsSpecified (buf : List Nat) (pos : Nat) (nameOffset nameLength : Nat) :
    Option (List Nat) :=
  utf16Decode (bytesAvail buf (pos + nameOffset) (nameLength * 2))

/-- STANDARD_INFORMATION body, after _clean_transform strips the Raw time
fields.  Modelled from the spec (section 3): four FILETIME fields then the
u32 file_attributes; the construct structure is in src/structures/mft.py,
not under src/. -/
structure StandardInformation where
  createTime : Option Nat
  modifyTime : Option Nat
  mftModifyTime : Option Nat
  accessTime : Option Nat
  fileAttributes : Nat
deriving DecidableEq, Repr

/-- MFTEntry._parse_standard_information (lines 310-328): construct read of
the fixed 36-byte layout, then each raw FILETIME run through WindowsTime;
a timestamp outside the calendar range becomes the Invalid marker (none)
without failing the body. -/
def parseStandardInformation (buf : List Nat) (pos : Nat) : Option StandardInformation :=
  if pos + 36 ≤ buf.length then
    some
      { createTime := windowsTimeParse (leSlice buf pos 8)
        modifyTime := windowsTimeParse (leSlice buf (pos + 8) 8)
        mftModifyTime := windowsTimeParse (leSlice buf (pos + 16) 8)
        accessTime := windowsTimeParse (leSlice buf (pos + 24) 8)
        fileAttributes := leSlice buf (pos + 32) 4 }
  else none

/-- FILE_NAME body.  Modelled from the spec (section 3): parent file
reference (48-bit segment + 16-bit sequence), four FILETIME fields,
allocated and real sizes, flags, then the name length in UTF-16 code
units, the namespace byte and the name itself; the construct structure is
in src/structures/mft.py, not under src/. -/
structure FileName where
  parentSegmentNumber : Nat
  parentSequenceNumber : Nat
  createTime : Option Nat
  modifyTime : Option Nat
  mftModifyTime : Option Nat
  accessTime : Option Nat
  allocatedSize : Nat
  realSize : Nat
  flags : Nat
  fileNameLength : Nat
  fileNameNamespace : Nat
  fileName : List Nat
deriving DecidableEq, Repr

/-- MFTEntry._parse_file_name (lines 259-278): construct read of the fixed
62-byte layout, timestamps converted as in STANDARD_INFORMATION, then
FileNameLength * 2 bytes read from the current position (a short read does
not fail) and decoded as UTF-16; a decode error propagates out of the body
decoder, so the body fails while the attribute's header survives. -/
def parseFileName (buf : List Nat) (pos : Nat) : Option FileName :=
  if pos + 62 ≤ buf.length then
    let nameLen := leSlice buf (pos + 60) 1
    match utf16Decode (bytesAvail buf (pos + 62) (nameLen * 2)) with
    | none => none
    | some nm =>
      some
        { parentSegmentNumber := leSlice buf pos 6
          parentSequenceNumber := leSlice buf (pos + 6) 2
          createTime := windowsTimeParse (leSlice buf (pos + 8) 8)
          modifyTime := windowsTimeParse (leSlice buf (pos + 16) 8)
          mftModifyTime := windowsTimeParse (leSlice buf (pos + 24) 8)
          accessTime := windowsTimeParse (leSlice buf (pos + 32) 8)
          allocatedSize := leSlice buf (pos + 40) 8
          realSize := leSlice buf (pos + 48) 8
          flags := leSlice buf (pos + 56) 4
          fileNameLength := nameLen
          fileNameNamespace := leSlice buf (pos + 61) 1
          fileName := nm }
  else none

/-- ATTRIBUTE_LIST entry.  Modelled from the spec (section 3) and the
fields the decoder uses (AttributeTypeCode, RecordLength,
AttributeNameLength, AttributeNameOffset): 26-byte fixed layout, the name
filled in by the enclosing loop; the construct structure is in
src/structures/mft.py, not under src/. -/
structure MFTAttributeListEntry where
  attributeTypeCode : AttributeTypeCode
  recordLength : Nat
  nameLength : Nat
  nameOffset : Nat
  startingVcn : Nat
  baseSegmentNumber : Nat
  baseSequenceNumber : Nat
  attributeId : Nat
  attributeName : List Nat
deriving DecidableEq, Repr

/-- Construct read of one attribute-list entry (26 bytes); the name is
filled in afterwards by the loop. -/
def parseAttributeListEntry (buf : List Nat) (pos : Nat) : Option MFTAttributeListEntry :=
  if pos + 26 ≤ buf.length then
    some
      { attributeTypeCode := typeCodeOfVal (leSlice buf pos 4)
        recordLength := leSlice buf (pos + 4) 2
        nameLength := leSlice buf (pos + 6) 1
        nameOffset := leSlice buf (pos + 7) 1
        startingVcn := leSlice buf (pos + 8) 8
        baseSegmentNumber := leSlice buf (pos + 16) 6
        baseSequenceNumber := leSlice buf (pos + 22) 2
        attributeId := leSlice buf (pos + 24) 2
        attributeName := [] }
  else none

/-- The attribute-list result container: insertion-ordered mapping from
lowercased type-code name to the entries of that type, in decode order. -/
abbrev AttributeListMap := List (String × List MFTAttributeListEntry)

/-- Append an entry under a key of the attribute-list container, creating
the key at the end on first use (Python dict insertion order). -/
def alAppend (m : AttributeListMap) (k : String) (e : MFTAttributeListEntry) :
    AttributeListMap :=
  if m.any (fun p => p.1 = k) then
    m.map fun p => if p.1 = k then (p.1, p.2 ++ [e]) else p
  else m ++ [(k, [e])]

/-- Loop of MFTEntry._parse_attribute_list (lines 293-309).  The source
compares the absolute stream position stream.tell() against
attribute_header.Form.ValueLength (line 294), so `pos` here is the
absolute position within the 1024-byte buffer, not a count of consumed
bytes.  Each iteration parses one entry, stops at END_OF_ATTRIBUTES, reads
the entry's name at AL_original_position + AttributeNameOffset, and on any
parse or decode error breaks, keeping the entries already decoded; on
success it seeks to AL_original_position + RecordLength.  The fuel exceeds
the iteration count of every terminating execution of the source loop
(positions strictly increase below valueLength when RecordLength is
positive); the source itself does not terminate when an entry's
RecordLength is 0, which no claim exercises. -/
def attributeListLoop (buf : List Nat) (valueLength : Nat) :
    Nat → Nat → AttributeListMap → AttributeListMap
  | 0, _, acc => acc
  | fuel + 1, pos, acc =>
    if pos < valueLength then
      match parseAttributeListEntry buf pos with
      | none => acc
      | some e =>
        if e.attributeTypeCode = AttributeTypeCode.endOfAttributes then acc
        else
          match utf16Decode (bytesAvail buf (pos + e.nameOffset) (e.nameLength * 2)) with
          | none => acc
          | some nm =>
            attributeListLoop buf valueLength fuel (pos + e.recordLength)
              (alAppend acc (typeKeyName e.attributeTypeCode) { e with attributeName := nm })
    else acc

/-- MFTEntry._parse_attribute_list: the loop starting from the value's
absolute position with an empty container; it never raises, so the body
decoder always succeeds (possibly with an empty container). -/
def parseAttributeList (buf : List Nat) (pos valueLength : Nat) : AttributeListMap :=
  attributeListLoop buf valueLength (valueLength + 1) pos []

/-- OBJECT_ID body.  Modelled from the spec (section 3): four GUIDs, the
last three optional (absent when the resident value is truncated); the
construct structure is in src/structures/mft.py, not under src/. -/
structure MFTObjectID where
  objectId : List Nat
  birthVolumeId : Option (List Nat)
  birthObjectId : Option (List Nat)
  domainId : Option (List Nat)
deriving DecidableEq, Repr

/-- MFTEntry._parse_object_id: one construct read; the first GUID is
required, the trailing GUIDs are present when their bytes are. -/
def parseObjectId (buf : List Nat) (pos : Nat) : Option MFTObjectID :=
  match readBytesExact buf pos 16 with
  | none => none
  | some g0 =>
    some
      { objectId := g0
        birthVolumeId := readBytesExact buf (pos + 16) 16
        birthObjectId := readBytesExact buf (pos + 32) 16
        domainId := readBytesExact buf (pos + 48) 16 }

/-- Security identifier (NTFSSID).  Modelled from the spec (section 3):
revision, 6-byte identifier authority, sub_authorities; the construct
structure is in src/structures/mft.py, not under src/. -/
structure NTFSSID where
  revision : Nat
  subAuthorityCount : Nat
  identifierAuthority : List Nat
  subAuthorities : List Nat
deriving DecidableEq, Repr

/-- NTFSSID.parse_stream: 8 fixed bytes then SubAuthorityCount u32 values;
raises (fails) when the buffer cannot supply them. -/
def parseSID (buf : List Nat) (pos : Nat) : Option NTFSSID :=
  if pos + 8 ≤ buf.length then
    let cnt := leSlice buf (pos + 1) 1
    if pos + 8 + 4 * cnt ≤ buf.length then
      some
        { revision := leSlice buf pos 1
          subAuthorityCount := cnt
          identifierAuthority := bytesAvail buf (pos + 2) 6
          subAuthorities := (List.range cnt).map fun i => leSlice buf (pos + 8 + 4 * i) 4 }
    else none
  else none

/-- Access-control list as the spec describes it (section 3); ACE bodies
are never decoded. -/
structure ACEHeader where
  aceType : Nat
  aceFlags : Nat
  aceSize : Nat
deriving DecidableEq, Repr

structure ACL where
  revision : Nat
  aclSize : Nat
  aceCount : Nat
  body : List ACEHeader
deriving DecidableEq, Repr

/-- Construct read of the 8-byte ACL header (MFTACLHeader). -/
def parseACLHeaderStruct (buf : List Nat) (pos : Nat) : Option (Nat × Nat × Nat) :=
  if pos + 8 ≤ buf.length then
    some (leSlice buf pos 1, leSlice buf (pos + 2) 2, leSlice buf (pos + 4) 2)
  else none

/-- MFTEntry._parse_access_control_list (lines 175-207).  The parsed header
is stored under the key 'header' (line 191) but line 193 reads
acl.Header.AclSize; Container attribute access is case-sensitive, so the
lookup raises AttributeError, the enclosing bare except at line 206 fires
and the function returns None.  Hence the ACL decoder never returns an
ACL, whether or not the header bytes were readable. -/
def parseAccessControlList (buf : List Nat) (pos : Nat) : Option ACL :=
  match parseACLHeaderStruct buf pos with
  | none => none
  | some _ => none

/-- SECURITY_DESCRIPTOR body (after _clean_transform). -/
structure SecurityDescriptor where
  revision : Nat
  control : Nat
  ownerSID : NTFSSID
  groupSID : NTFSSID
  sacl : Option ACL
  dacl : Option ACL
deriving DecidableEq, Repr

/-- MFTEntry._parse_security_descriptor (lines 208-242).  The 20-byte
relative security-descriptor header is read at the start of the body
(header_position); each of the four offsets is taken relative to
header_position.  The owner and group SID parses are not guarded: if
either raises, the exception propagates to parse_structure and the whole
body fails.  The two ACL parses go through
_parse_access_control_list, whose own try/except turns any failure into
None.  Layout of the header modelled from the spec: revision u8, one
padding byte, control u16, then the four u32 offsets. -/
def parseSecurityDescriptor (buf : List Nat) (pos : Nat) : Option SecurityDescriptor :=
  if pos + 20 ≤ buf.length then
    match parseSID buf (pos + leSlice buf (pos + 4) 4) with
    | none => none
    | some owner =>
      match parseSID buf (pos + leSlice buf (pos + 8) 4) with
      | none => none
      | some group =>
        some
          { revision := leSlice buf pos 1
            control := leSlice buf (pos + 2) 2
            ownerSID := owner
            groupSID := group
            sacl := parseAccessControlList buf (pos + leSlice buf (pos + 12) 4)
            dacl := parseAccessControlList buf (pos + leSlice buf (pos + 16) 4) }
  else none

/-- VOLUME_INFORMATION body (spec section 4.4: fixed 8-byte reserved
region, two version bytes, one bitflag field). -/
structure VolumeInformation where
  majorVersion : Nat
  minorVersion : Nat
  flags : Nat
deriving DecidableEq, Repr

/-- MFTEntry._parse_volume_information: one construct read of the 12-byte
layout. -/
def parseVolumeInformation (buf : List Nat) (pos : Nat) : Option VolumeInformation :=
  if pos + 12 ≤ buf.length then
    some
      { majorVersion := leSlice buf (pos + 8) 1
        minorVersion := leSlice buf (pos + 9) 1
        flags := leSlice buf (pos + 10) 2 }
  else none

/-- MFTEntry._parse_volume_name (lines 160-174): read ValueLength bytes
(short read allowed) and decode as UTF-16; a decode error fails the
body. -/
def parseVolumeName (buf : List Nat) (pos valueLength : Nat) : Option (List Nat) :=
  utf16Decode (bytesAvail buf pos valueLength)

/-- Decoded attribute bodies (tagged union over the type codes whose
resident bodies the source decodes). -/
inductive AttributeBody
  | standardInformation (b : StandardInformation)
  | attributeList (b : AttributeListMap)
  | fileName (b : FileName)
  | objectId (b : MFTObjectID)
  | securityDescriptor (b : SecurityDescriptor)
  | volumeName (b : List Nat)
  | volumeInformation (b : VolumeInformation)
deriving DecidableEq, Repr

/-- Dispatch of MFTEntry._parse_next_attribute line 375: parse_structure
with the lowercased type-code name.  The cursor is pre-positioned at
entry_start + value_offset (`vpos`).  DATA, INDEX_ROOT and
INDEX_ALLOCATION have stub parsers returning None; END_OF_ATTRIBUTES and
UNKNOWN have no parser, so parse_structure logs and returns None; any
exception inside a body parser is caught by parse_structure and becomes
None as well. -/
def dispatchBody (buf : List Nat) (vpos valueLength : Nat) :
    AttributeTypeCode → Option AttributeBody
  | AttributeTypeCode.standardInformation =>
    (parseStandardInformation buf vpos).map AttributeBody.standardInformation
  | AttributeTypeCode.attributeList =>
    some (AttributeBody.attributeList (parseAttributeList buf vpos valueLength))
  | AttributeTypeCode.fileName =>
    (parseFileName buf vpos).map AttributeBody.fileName
  | AttributeTypeCode.objectId =>
    (parseObjectId buf vpos).map AttributeBody.objectId
  | AttributeTypeCode.securityDescriptor =>
    (parseSecurityDescriptor buf vpos).map AttributeBody.securityDescriptor
  | AttributeTypeCode.volumeName =>
    (parseVolumeName buf vpos valueLength).map AttributeBody.volumeName
  | AttributeTypeCode.volumeInformation =>
    (parseVolumeInformation buf vpos).map AttributeBody.volumeInformation
  | _ => none

/-- One attribute as accumulated by MFTEntry.parse: the header together
with the body (None when the body decoder failed or returned nothing). -/
structure ParsedAttribute where
  header : MFTAttributeHeader
  body : Option AttributeBody
deriving DecidableEq, Repr

/-- Result of MFTEntry._parse_next_attribute as seen by the caller through
parse_structure: the END_OF_ATTRIBUTES sentinel (the (None, None) return),
a parsed attribute with the next cursor position set by the finally-seek
to original_position + RecordLength, or a failure (an exception reached
parse_structure, which returns a bare None that the caller cannot
unpack). -/
inductive NextAttributeResult
  | endOfAttributes
  | attr (tc : AttributeTypeCode) (data : Option ParsedAttribute) (nextPos : Nat)
  | failed
deriving DecidableEq, Repr

/-- MFTEntry._parse_next_attribute (lines 351-380).  Reads the type code;
END_OF_ATTRIBUTES returns the sentinel before any seek.  Otherwise the
attribute header is parsed at the same position; a header parse failure
raises out of the function (the except and finally blocks re-raise on the
None header).  A non-resident attribute (FormCode != 0) yields
(TypeCode, None).  A resident attribute dispatches its body decoder with
the cursor at original_position + ValueOffset; the body result, successful
or None, is wrapped with the header and returned.  In both non-failing
cases the finally block seeks to original_position + RecordLength. -/
def parseNextAttribute (buf : List Nat) (pos : Nat) : NextAttributeResult :=
  match parseTypeCode buf pos with
  | none => NextAttributeResult.failed
  | some AttributeTypeCode.endOfAttributes => NextAttributeResult.endOfAttributes
  | some _ =>
    match parseAttributeHeader buf pos with
    | none => NextAttributeResult.failed
    | some hdr =>
      match hdr.form with
      | none => NextAttributeResult.attr hdr.typeCode none (pos + hdr.recordLength)
      | some f =>
        NextAttributeResult.attr hdr.typeCode
          (some { header := hdr
                  body := dispatchBody buf (pos + f.valueOffset) f.valueLength hdr.typeCode })
          (pos + hdr.recordLength)

/-- The attribute container of a decoded entry: the ten type keys set up
by MFTEntry.__init__ (lines 41-55), each bound to an ordered list. -/
abbrev EntryAttributes := List (String × List ParsedAttribute)

/-- MFTEntry.__init__: the ten attribute-type keys, each an empty list. -/
def initAttributes : EntryAttributes :=
  [("standard_information", []),
   ("attribute_list", []),
   ("file_name", []),
   ("object_id", []),
   ("security_descriptor", []),
   ("volume_name", []),
   ("volume_information", []),
   ("data", []),
   ("index_root", []),
   ("index_allocation", [])]

/-- self[attribute_type.lower()].append(attribute_data): appends under an
existing key and never creates or removes keys (MFTEntry.parse appends
only after the membership check of line 473). -/
def attrAppend (m : EntryAttributes) (k : String) (a : ParsedAttribute) : EntryAttributes :=
  m.map fun p => if p.1 = k then (p.1, p.2 ++ [a]) else p

/-- Outcome of the attribute scan loop: fuel exhaustion marks an execution
of the source that has not terminated within `fuel` iterations; aborted
marks an exception escaping MFTEntry.parse (no entry produced). -/
inductive ScanResult
  | outOfFuel
  | aborted
  | finished (attrs : EntryAttributes)
deriving DecidableEq, Repr

/-- The while-loop of MFTEntry.parse (lines 469-476): while the cursor is
below header.UsedSize, parse the next attribute; a (None, None) return
breaks; a type code outside the container's keys is skipped; otherwise a
non-None attribute_data is appended under its type key.  The cursor for
the next iteration is the position set by the finally-seek of
_parse_next_attribute. -/
def scanAttributes (buf : List Nat) (usedSize : Nat) :
    Nat → Nat → EntryAttributes → ScanResult
  | 0, _, _ => ScanResult.outOfFuel
  | fuel + 1, pos, acc =>
    if pos < usedSize then
      match parseNextAttribute buf pos with
      | NextAttributeResult.failed => ScanResult.aborted
      | NextAttributeResult.endOfAttributes => ScanResult.finished acc
      | NextAttributeResult.attr tc dataOpt nextPos =>
        match typeKey tc with
        | none => scanAttributes buf usedSize fuel nextPos acc
        | some k =>
          match dataOpt with
          | none => scanAttributes buf usedSize fuel nextPos acc
          | some a => scanAttributes buf usedSize fuel nextPos (attrAppend acc k a)
    else ScanResult.finished acc

/-- The decoded entry: header plus the attribute container (the
serialization-oriented bookkeeping fields are out of scope). -/
structure DecodedEntry where
  header : MFTEntryHeader
  attributes : EntryAttributes
deriving DecidableEq, Repr

/-- Outcome of MFTEntry.parse on a fresh entry: noEntry when an exception
escapes parse (unreadable entry header, or an unreadable attribute header
or type code mid-scan), outOfFuel when the scan has not terminated within
the given fuel. -/
inductive ParseOutcome
  | outOfFuel
  | noEntry
  | entry (e : DecodedEntry)
deriving DecidableEq, Repr

/-- MFTEntry.parse (lines 455-481) on a freshly constructed entry: parse
the entry header at position 0 (a failure there leaves self.header None
and the following seek raises, so no entry is produced), seek to
FirstAttributeOffset, then run the attribute scan. -/
def mftEntryParse (fuel : Nat) (buf : List Nat) : ParseOutcome :=
  match parseEntryHeader buf with
  | none => ParseOutcome.noEntry
  | some hdr =>
    match scanAttributes buf hdr.usedSize fuel hdr.firstAttributeOffset initAttributes with
    | ScanResult.outOfFuel => ParseOutcome.outOfFuel
    | ScanResult.aborted => ParseOutcome.noEntry
    | ScanResult.finished attrs => ParseOutcome.entry { header := hdr, attributes := attrs }

/-- Lookup of one attribute-type list in a decoded entry's container. -/
def attrsLookup (attrs : EntryAttributes) (k : String) : Option (List ParsedAttribute) :=
  (attrs.find? (fun p => p.1 = k)).map Prod.snd

/-- Attributes of a parse outcome, when an entry was produced. -/
def entryAttrsOf : ParseOutcome → Option EntryAttributes
  | ParseOutcome.entry e => some e.attributes
  | _ => none

/-- Bodies recorded under one type key of a decode outcome. -/
def typeBodies (fuel : Nat) (buf : List Nat) (k : String) :
    Option (List (Option AttributeBody)) :=
  (entryAttrsOf (mftEntryParse fuel buf)).bind fun attrs =>
    (attrsLookup attrs k).map (List.map ParsedAttribute.body)

/-- Whether a parse outcome produced an entry. -/
def isEntry : ParseOutcome → Bool
  | ParseOutcome.entry _ => true
  | _ => false

/-- Next cursor position recorded in a next-attribute result. -/
def nextPosOf : NextAttributeResult → Option Nat
  | NextAttributeResult.attr _ _ p => some p
  | _ => none

/-- All-zero buffer of a given length. -/
def zeroBytes (n : Nat) : List Nat := List.replicate n 0

/-- Overwrite the bytes of `buf` starting at `pos` with `bs`. -/
def patchBytes (buf : List Nat) (pos : Nat) (bs : List Nat) : List Nat :=
  buf.take pos ++ bs ++ buf.drop (pos + bs.length)

/-- Little-endian encoding of `val` on `width` bytes. -/
def leBytes : Nat → Nat → List Nat
  | 0, _ => []
  | w + 1, v => v % 256 :: leBytes w (v / 256)

/-- Well-formed 1024-byte entry: a FILE_NAME attribute at offset 48
(record_length 96, resident value of 70 bytes at offset 72, name "test"),
a STANDARD_INFORMATION attribute at offset 144 (record_length 60, resident
value of 36 bytes at offset 168), an END_OF_ATTRIBUTES marker at 204,
used_size 208. -/
def c1BaseBuf : List Nat :=
  patchBytes (patchBytes (patchBytes (patchBytes (patchBytes (patchBytes (patchBytes
    (zeroBytes 1024)
    0 (leBytes 4 0x454c4946))
    20 (leBytes 2 48))
    24 (leBytes 4 208))
    28 (leBytes 4 1024))
    48 (leBytes 4 0x30 ++ leBytes 4 96 ++ [0, 0] ++ leBytes 2 0 ++ leBytes 2 0 ++
        leBytes 2 0 ++ leBytes 4 70 ++ leBytes 2 24 ++ [0, 0] ++
        leBytes 6 5 ++ leBytes 2 1 ++
        leBytes 8 10 ++ leBytes 8 20 ++ leBytes 8 30 ++ leBytes 8 40 ++
        leBytes 8 1024 ++ leBytes 8 512 ++ leBytes 4 0 ++ [4, 1] ++
        [0x74, 0, 0x65, 0, 0x73, 0, 0x74, 0]))
    144 (leBytes 4 0x10 ++ leBytes 4 60 ++ [0, 0] ++ leBytes 2 0 ++ leBytes 2 0 ++
        leBytes 2 1 ++ leBytes 4 36 ++ leBytes 2 24 ++ [0, 0] ++
        leBytes 8 10 ++ leBytes 8 20 ++ leBytes 8 30 ++ leBytes 8 40 ++
        leBytes 4 0x20))
    204 (leBytes 4 0xFFFFFFFF)

/-- c1BaseBuf with the body of its FILE_NAME attribute corrupted: the first
UTF-16 code unit of the stored name (bytes 134-135) becomes the unpaired
high surrogate 0xD800, so the name no longer decodes; every attribute
header, including the FILE_NAME record_length, is untouched. -/
def c1CorruptBuf : List Nat := patchBytes c1BaseBuf 134 [0x00, 0xD8]

/-- 1024-byte entry whose first attribute (at offset 48, within used_size
100) has a valid non-END type code, record_length 0 and a non-resident
form code; the finally-seek of _parse_next_attribute then returns the
cursor to its own start offset. -/
def c2Buf : List Nat :=
  patchBytes (patchBytes (patchBytes (patchBytes
    (zeroBytes 1024)
    0 (leBytes 4 0x454c4946))
    20 (leBytes 2 48))
    24 (leBytes 4 100))
    48 (leBytes 4 0x10 ++ leBytes 4 0 ++ [1])

/-- 48-byte buffer (shorter than 1024) holding a complete entry header:
FILE magic, first_attribute_offset 48 and used_size 48, so the attribute
loop exits immediately. -/
def c3ShortBuf : List Nat :=
  patchBytes (patchBytes (patchBytes
    (zeroBytes 48)
    0 (leBytes 4 0x454c4946))
    20 (leBytes 2 48))
    24 (leBytes 4 48)

/-- The entry header parseEntryHeader reads from c3ShortBuf. -/
def c3Header : MFTEntryHeader :=
  { signature := Signature.FILE
    fixupOffset := 0
    fixupCount := 0
    logFileSequenceNumber := 0
    sequenceNumber := 0
    referenceCount := 0
    firstAttributeOffset := 48
    active := false
    hasIndex := false
    usedSize := 48
    totalSize := 0
    baseSegmentNumber := 0
    baseSequenceNumber := 0
    firstAttributeId := 0
    recordNumber := 0 }

/-- 1024-byte entry with one resident ATTRIBUTE_LIST attribute at offset
48: value_length 52, value at absolute offset 72 holding two well-formed
26-byte attribute-list entries (at 72 and 98), then END_OF_ATTRIBUTES at
128, used_size 132.  Because the value sits at absolute offset 72 ≥ 52,
the loop guard stream.tell() < ValueLength is false at entry. -/
def c5Buf : List Nat :=
  patchBytes (patchBytes (patchBytes (patchBytes (patchBytes (patchBytes (patchBytes
    (zeroBytes 1024)
    0 (leBytes 4 0x454c4946))
    20 (leBytes 2 48))
    24 (leBytes 4 132))
    48 (leBytes 4 0x20 ++ leBytes 4 80 ++ [0, 0] ++ leBytes 2 0 ++ leBytes 2 0 ++
        leBytes 2 0 ++ leBytes 4 52 ++ leBytes 2 24 ++ [0, 0]))
    72 (leBytes 4 0x30 ++ leBytes 2 26 ++ [0, 26] ++ leBytes 8 0 ++
        leBytes 6 7 ++ leBytes 2 2 ++ leBytes 2 0))
    98 (leBytes 4 0x10 ++ leBytes 2 26 ++ [0, 26] ++ leBytes 8 0 ++
        leBytes 6 8 ++ leBytes 2 3 ++ leBytes 2 1))
    128 (leBytes 4 0xFFFFFFFF)

/-- 1024-byte buffer with a security-descriptor body at offset 100:
20-byte relative header (owner SID offset 20, group SID offset 36, SACL
offset 0, DACL offset 5000 — out of range), owner SID at 120 (one
sub-authority, 18) and group SID at 136 (one sub-authority, 32). -/
def c6DaclBuf : List Nat :=
  patchBytes (patchBytes (patchBytes
    (zeroBytes 1024)
    100 ([1, 0] ++ leBytes 2 0x8004 ++ leBytes 4 20 ++ leBytes 4 36 ++
         leBytes 4 0 ++ leBytes 4 5000))
    120 ([1, 1] ++ [0, 0, 0, 0, 0, 5] ++ leBytes 4 18))
    136 ([1, 1] ++ [0, 0, 0, 0, 0, 5] ++ leBytes 4 32)

/-- c6DaclBuf with the owner SID offset replaced by 5000, placing the
owner SID out of range while the group SID at offset 36 stays intact. -/
def c6OwnerBuf : List Nat := patchBytes c6DaclBuf 104 (leBytes 4 5000)

/-- The security descriptor decoded from c6DaclBuf at position 100. -/
def c6Descriptor : SecurityDescriptor :=
  { revision := 1
    control := 0x8004
    ownerSID :=
      { revision := 1
        subAuthorityCount := 1
        identifierAuthority := [0, 0, 0, 0, 0, 5]
        subAuthorities := [18] }
    groupSID :=
      { revision := 1
        subAuthorityCount := 1
        identifierAuthority := [0, 0, 0, 0, 0, 5]
        subAuthorities := [32] }
    sacl := none
    dacl := none }

/-- 1024-byte buffer with an attribute header at offset 48 whose
name_length is 1 and name_offset is 24: the two bytes at absolute offset
72 are the UTF-16LE code unit 0x0041, well inside the buffer, so both the
seek and the read the spec describes would succeed. -/
def c7Buf : List Nat :=
  patchBytes (patchBytes
    (zeroBytes 1024)
    48 (leBytes 4 0x10 ++ leBytes 4 80 ++ [0, 1] ++ leBytes 2 24 ++ leBytes 2 0 ++
        leBytes 2 0 ++ leBytes 4 0 ++ leBytes 2 28 ++ [0]))
    72 [0x41, 0]

/-- 1024-byte entry containing no FILE_NAME attribute at all: one
STANDARD_INFORMATION attribute at offset 48 (record_length 60, value at
72), END_OF_ATTRIBUTES at 108, used_size 112. -/
def c8AbsentBuf : List Nat :=
  patchBytes (patchBytes (patchBytes (patchBytes (patchBytes
    (zeroBytes 1024)
    0 (leBytes 4 0x454c4946))
    20 (leBytes 2 48))
    24 (leBytes 4 112))
    48 (leBytes 4 0x10 ++ leBytes 4 60 ++ [0, 0] ++ leBytes 2 0 ++ leBytes 2 0 ++
        leBytes 2 0 ++ leBytes 4 36 ++ leBytes 2 24 ++ [0, 0]))
    108 (leBytes 4 0xFFFFFFFF)

/-- The FILE_NAME attribute header at offset 48 of c1BaseBuf and
c1CorruptBuf (the corruption touches only body bytes). -/
def c1FnHeader : MFTAttributeHeader :=
  { typeCode := AttributeTypeCode.fileName
    recordLength := 96
    formCode := 0
    nameLength := 0
    nameOffset := 0
    flags := 0
    attributeId := 0
    form := some { valueLength := 70, valueOffset := 24, residentFlags := 0 }
    name := none }

/-- A successfully parsed attribute header carries the type code read at
the same position. -/
theorem headerStruct_typeCode (buf : List Nat) (pos : Nat) (hdr : MFTAttributeHeader)
    (h : parseAttributeHeaderStruct buf pos = some hdr) :
    parseTypeCode buf pos = some hdr.typeCode := by
  unfold parseAttributeHeaderStruct at h
  split at h
  case isTrue h16 =>
    have h4 : pos + 4 ≤ buf.length := by omega
    unfold parseTypeCode readUInt readBytesExact
    rw [if_pos h4]
    split at h
    · split at h
      · cases h
        rfl
      · simp at h
    · cases h
      rfl
  case isFalse => simp at h

/-- parseAttributeHeader preserves the struct fields other than the
name; in particular the type code it reports is the one read at `pos`. -/
theorem parseAttributeHeader_typeCode (buf : List Nat) (pos : Nat) (hdr : MFTAttributeHeader)
    (h : parseAttributeHeader buf pos = some hdr) :
    parseTypeCode buf pos = some hdr.typeCode := by
  unfold parseAttributeHeader at h
  cases hs : parseAttributeHeaderStruct buf pos with
  | none => rw [hs] at h; simp at h
  | some h0 =>
    rw [hs] at h
    have := headerStruct_typeCode buf pos h0 hs
    rw [this]
    dsimp only at h
    by_cases hn : 0 < h0.nameLength
    · rw [if_pos hn] at h
      cases h
      rfl
    · rw [if_neg hn] at h
      cases h
      rfl

/-- Characterization of _parse_next_attribute when the attribute header at
`pos` parses and its type code is not the END_OF_ATTRIBUTES sentinel: the
result is an attribute whose next cursor position is
pos + header.record_length, the body being dispatched only for the
resident form. -/
theorem parseNextAttribute_eq (buf : List Nat) (pos : Nat) (hdr : MFTAttributeHeader)
    (h : parseAttributeHeader buf pos = some hdr)
    (hne : hdr.typeCode ≠ AttributeTypeCode.endOfAttributes) :
    parseNextAttribute buf pos =
      match hdr.form with
      | none => NextAttributeResult.attr hdr.typeCode none (pos + hdr.recordLength)
      | some f =>
        NextAttributeResult.attr hdr.typeCode
          (some { header := hdr
                  body := dispatchBody buf (pos + f.valueOffset) f.valueLength hdr.typeCode })
          (pos + hdr.recordLength) := by
  have htc := parseAttributeHeader_typeCode buf pos hdr h
  unfold parseNextAttribute
  rw [htc, h]
  rcases hdr with ⟨tc, rl, fc, nl, no, fl, ai, fo, na⟩
  cases tc
  case endOfAttributes => exact absurd rfl hne
  all_goals rfl

set_option maxRecDepth 8000 in
set_option maxHeartbeats 2000000 in
/-- C1: for every buffer and every attribute whose header (including
record_length) parses, the scan advances from the attribute's start
offset to start offset + record_length regardless of what the body
decoder returns; concretely, corrupting the body of the FILE_NAME
attribute of c1BaseBuf (c1CorruptBuf truncates its stored name to an
unpaired surrogate, failing the body) leaves the sibling
STANDARD_INFORMATION attribute decoded exactly as in the uncorrupted
buffer, while the FILE_NAME body itself turns from decoded to failed. -/
theorem c1_scan_advances_by_record_length :
    (∀ (buf : List Nat) (pos : Nat) (hdr : MFTAttributeHeader),
        parseAttributeHeader buf pos = some hdr →
        hdr.typeCode ≠ AttributeTypeCode.endOfAttributes →
        nextPosOf (parseNextAttribute buf pos) = some (pos + hdr.recordLength)) ∧
    typeBodies 8 c1CorruptBuf "standard_information" =
      typeBodies 8 c1BaseBuf "standard_information" ∧
    typeBodies 8 c1BaseBuf "standard_information" ≠ some [] ∧
    typeBodies 8 c1CorruptBuf "file_name" = some [none] ∧
    typeBodies 8 c1BaseBuf "file_name" ≠ some [none] := by
  refine ⟨?_, by decide, by decide, by decide, by decide⟩
  intro buf pos hdr h hne
  rw [parseNextAttribute_eq buf pos hdr h hne]
  cases hdr.form <;> rfl

set_option maxRecDepth 8000 in
set_option maxHeartbeats 2000000 in
/-- Witness for C1: the corrupted FILE_NAME attribute of c1CorruptBuf at
offset 48 still advances the scan to 48 + 96. -/
theorem c1_scan_advances_by_record_length_witness :
    nextPosOf (parseNextAttribute c1CorruptBuf 48) = some (48 + 96) :=
  c1_scan_advances_by_record_length.1 c1CorruptBuf 48 c1FnHeader (by decide) (by decide)

/-- The entry header parseEntryHeader reads from c2Buf. -/
def c2Header : MFTEntryHeader :=
  { signature := Signature.FILE
    fixupOffset := 0
    fixupCount := 0
    logFileSequenceNumber := 0
    sequenceNumber := 0
    referenceCount := 0
    firstAttributeOffset := 48
    active := false
    hasIndex := false
    usedSize := 100
    totalSize := 0
    baseSegmentNumber := 0
    baseSequenceNumber := 0
    firstAttributeId := 0
    recordNumber := 0 }

set_option maxRecDepth 8000 in
set_option maxHeartbeats 2000000 in
/-- One scan iteration on c2Buf at position 48 consumes fuel but leaves
both the position and the accumulator unchanged: the record_length-0
attribute yields next position 48 + 0 and appends nothing. -/
theorem c2Buf_scan_step (n : Nat) (acc : EntryAttributes) :
    scanAttributes c2Buf 100 (n + 1) 48 acc = scanAttributes c2Buf 100 n 48 acc := rfl

set_option maxRecDepth 8000 in
set_option maxHeartbeats 2000000 in
/-- mftEntryParse on c2Buf reduces to the scan from position 48 with
used_size 100. -/
theorem c2Buf_parse_form (fuel : Nat) :
    mftEntryParse fuel c2Buf =
      match scanAttributes c2Buf 100 fuel 48 initAttributes with
      | ScanResult.outOfFuel => ParseOutcome.outOfFuel
      | ScanResult.aborted => ParseOutcome.noEntry
      | ScanResult.finished attrs =>
        ParseOutcome.entry { header := c2Header, attributes := attrs } := rfl

set_option maxRecDepth 8000 in
set_option maxHeartbeats 2000000 in
/-- C2: refuted by the code on c2Buf, whose attribute at offset 48 (within
used_size 100) has record_length 0: the iteration neither advances the
cursor (the finally-seek returns to 48 + 0 = 48) nor stops, so the scan
loop of MFTEntry.parse never terminates — for every fuel bound the
execution is still running, instead of halting enumeration and preserving
the attributes decoded before. -/
theorem c2_zero_record_length_loops_forever :
    parseNextAttribute c2Buf 48 =
      NextAttributeResult.attr AttributeTypeCode.standardInformation none 48 ∧
    (∀ fuel, mftEntryParse fuel c2Buf = ParseOutcome.outOfFuel) := by
  refine ⟨by decide, ?_⟩
  have hloop : ∀ n, scanAttributes c2Buf 100 n 48 initAttributes = ScanResult.outOfFuel := by
    intro n
    induction n with
    | zero => rfl
    | succ k ih => rw [c2Buf_scan_step k initAttributes]; exact ih
  intro fuel
  rw [c2Buf_parse_form fuel, hloop fuel]

set_option maxRecDepth 8000 in
set_option maxHeartbeats 2000000 in
/-- C3 counterexample: c3ShortBuf is 48 bytes long — shorter than 1024 —
yet decoding does not fail: it produces a complete DecodedEntry (the
48-byte entry header, used_size 48, no attributes), contradicting the
claim that every buffer shorter than 1024 bytes fails with
EntryHeaderUnreadable and produces no entry. -/
theorem c3_short_buffer_still_decodes :
    c3ShortBuf.length < 1024 ∧
    mftEntryParse 4 c3ShortBuf =
      ParseOutcome.entry { header := c3Header, attributes := initAttributes } :=
  ⟨by decide, by decide⟩

/-- C3 amended: the decoder rejects nothing by length alone; an entry
fails to be produced when the 48-byte entry header itself cannot be read,
so every buffer shorter than 48 bytes yields no DecodedEntry (buffers of
at least 48 bytes may decode normally even when shorter than 1024, as the
counterexample shows). -/
theorem c3_header_too_short_no_entry (buf : List Nat) (fuel : Nat) (h : buf.length < 48) :
    mftEntryParse fuel buf = ParseOutcome.noEntry := by
  unfold mftEntryParse parseEntryHeader
  rw [if_neg (by omega)]

/-- Witness for the amended C3 at a concrete 4-byte buffer. -/
theorem c3_header_too_short_no_entry_witness :
    mftEntryParse 3 [70, 73, 76, 69] = ParseOutcome.noEntry :=
  c3_header_too_short_no_entry [70, 73, 76, 69] 3 (by decide)

/-- C4: the timestamp converter returns EPOCH_1601 plus raw * 100
nanoseconds truncated to microseconds (raw * 100 / 1000 microseconds
since 1601-01-01T00:00:00Z) whenever that instant lies inside the
representable calendar range, and the InvalidTimestamp failure (none)
otherwise; in particular raw = 0 converts to 1601-01-01T00:00:00.000000Z. -/
theorem c4_filetime_conversion (raw : Nat) :
    windowsTimeParse raw =
      (if raw * 100 / 1000 < maxCalendarMicros then some (raw * 100 / 1000) else none) ∧
    windowsTimeParse 0 = some 0 ∧
    microsToCivil 0 =
      { year := 1601, month := 1, day := 1, hour := 0, minute := 0, second := 0,
        microsecond := 0 } := by
  have hdiv : raw * 100 / 1000 = raw / 10 := by
    rw [show (1000 : Nat) = 100 * 10 by rfl, Nat.mul_comm raw 100,
        Nat.mul_div_mul_left raw 10 (by norm_num)]
  refine ⟨?_, by decide, by decide⟩
  rw [hdiv]
  rfl

set_option maxRecDepth 8000 in
set_option maxHeartbeats 2000000 in
/-- C5: refuted by the code on c5Buf: its ATTRIBUTE_LIST value sits at
absolute offset 72 with value_length 52 and holds two individually
decodable entries, but the loop guard of _parse_attribute_list compares
the absolute stream position (72) against value_length (52), so the loop
body never runs and the decoded list is empty — the claimed
iterate-until-cumulative-bytes-consumed-reach-value_length behavior would
have decoded both entries.  The full entry decode records the
ATTRIBUTE_LIST attribute with an empty container. -/
theorem c5_attribute_list_compares_absolute_position :
    parseAttributeList c5Buf 72 52 = [] ∧
    (parseAttributeListEntry c5Buf 72).isSome = true ∧
    (parseAttributeListEntry c5Buf 98).isSome = true ∧
    typeBodies 8 c5Buf "attribute_list" = some [some (AttributeBody.attributeList [])] :=
  ⟨by decide, by decide, by decide, by decide⟩

/-- ACL decoding never succeeds: _parse_access_control_list stores the
parsed header under the key 'header' but reads acl.Header.AclSize, whose
case-sensitive attribute lookup raises, and the bare except returns
None. -/
theorem parseAccessControlList_none (buf : List Nat) (p : Nat) :
    parseAccessControlList buf p = none := by
  unfold parseAccessControlList
  cases parseACLHeaderStruct buf p <;> rfl

set_option maxRecDepth 8000 in
set_option maxHeartbeats 2000000 in
/-- C6 counterexample: on c6OwnerBuf the owner SID offset points out of
range, and the whole security descriptor fails to decode (none) even
though the group SID at offset 36 is decodable on its own — the four
components are not decoded independently. -/
theorem c6_owner_sid_failure_aborts_descriptor :
    parseSecurityDescriptor c6OwnerBuf 100 = none ∧
    (parseSID c6OwnerBuf 136).isSome = true :=
  ⟨by decide, by decide⟩

set_option maxRecDepth 8000 in
set_option maxHeartbeats 2000000 in
/-- C6 amended: the owner SID, group SID, SACL and DACL are located by
offsets relative to the start of the security-descriptor body; the SACL
and DACL are decoded independently — their failure only leaves them
absent (indeed _parse_access_control_list always returns None) — but a
failure decoding the owner or group SID aborts the whole descriptor.  A
descriptor whose DACL offset is out of range still returns a valid
OwnerSID and GroupSID with DACL absent, as c6DaclBuf shows. -/
theorem c6_sid_and_acl_decoding :
    (∀ (buf : List Nat) (pos : Nat) (sd : SecurityDescriptor),
        parseSecurityDescriptor buf pos = some sd →
        sd.sacl = none ∧ sd.dacl = none) ∧
    parseSecurityDescriptor c6DaclBuf 100 = some c6Descriptor ∧
    c6Descriptor.ownerSID.subAuthorities = [18] ∧
    c6Descriptor.groupSID.subAuthorities = [32] ∧
    c6Descriptor.dacl = none := by
  refine ⟨?_, by decide, by decide, by decide, by decide⟩
  intro buf pos sd h
  unfold parseSecurityDescriptor at h
  split at h
  · split at h
    · simp at h
    · split at h
      · simp at h
      · cases h
        exact ⟨parseAccessControlList_none _ _, parseAccessControlList_none _ _⟩
  · simp at h

set_option maxRecDepth 8000 in
set_option maxHeartbeats 2000000 in
/-- Witness for the amended C6 at the concrete descriptor of c6DaclBuf. -/
theorem c6_sid_and_acl_decoding_witness :
    c6Descriptor.sacl = none ∧ c6Descriptor.dacl = none :=
  c6_sid_and_acl_decoding.1 c6DaclBuf 100 c6Descriptor (by decide)

/-- The attribute header parseAttributeHeader reads at offset 48 of
c7Buf. -/
def c7Header : MFTAttributeHeader :=
  { typeCode := AttributeTypeCode.standardInformation
    recordLength := 80
    formCode := 0
    nameLength := 1
    nameOffset := 24
    flags := 0
    attributeId := 0
    form := some { valueLength := 0, valueOffset := 28, residentFlags := 0 }
    name := none }

set_option maxRecDepth 8000 in
set_option maxHeartbeats 2000000 in
/-- C7: refuted by the code on c7Buf: the attribute header at offset 48
has name_length 1 and name_offset 24, and the two bytes at the absolute
offset 48 + 24 decode as the UTF-16 code unit 0x41 — the seek and read
the claim describes would succeed — yet the parsed header's name is
absent, because _parse_attribute_header computes the read count as
NameLength * 2. (a float), stream.read raises TypeError and the except
branch stores None.  The final conjunct shows the name is absent for
every parsed attribute header, not just this one. -/
theorem c7_attribute_name_always_absent :
    parseAttributeHeader c7Buf 48 = some c7Header ∧
    c7Header.name = none ∧
    attributeNameAsSpecified c7Buf 48 24 1 = some [0x41] ∧
    (∀ (buf : List Nat) (pos : Nat) (hdr : MFTAttributeHeader),
        parseAttributeHeader buf pos = some hdr → hdr.name = none) := by
  refine ⟨by decide, by decide, by decide, ?_⟩
  intro buf pos hdr h
  unfold parseAttributeHeader at h
  split at h
  · simp at h
  · split at h
    · cases h
      rfl
    · cases h
      rfl

set_option maxRecDepth 8000 in
set_option maxHeartbeats 2000000 in
/-- Witness for C7's universal conjunct at the concrete header of
c7Buf. -/
theorem c7_attribute_name_always_absent_witness :
    c7Header.name = none :=
  c7_attribute_name_always_absent.2.2.2 c7Buf 48 c7Header (by decide)

set_option maxRecDepth 8000 in
set_option maxHeartbeats 2000000 in
/-- C8: a resident attribute with a parseable header and a known type key
is appended to its type's list with an explicit record — header plus the
body result, even when that result is none — so an attribute that is
present but whose body failed to decode is visible in the output.
Concretely, c1CorruptBuf (whose FILE_NAME body fails) records the
FILE_NAME attribute with body none, while c8AbsentBuf (no FILE_NAME in the
record) has an empty file_name list: the two outcomes differ. -/
theorem c8_present_but_failed_recorded :
    (∀ (buf : List Nat) (pos : Nat) (hdr : MFTAttributeHeader) (f : ResidentForm)
        (k : String),
        parseAttributeHeader buf pos = some hdr →
        hdr.form = some f →
        typeKey hdr.typeCode = some k →
        parseNextAttribute buf pos =
          NextAttributeResult.attr hdr.typeCode
            (some { header := hdr
                    body := dispatchBody buf (pos + f.valueOffset) f.valueLength hdr.typeCode })
            (pos + hdr.recordLength)) ∧
    typeBodies 8 c1CorruptBuf "file_name" = some [none] ∧
    typeBodies 8 c8AbsentBuf "file_name" = some [] ∧
    typeBodies 8 c1CorruptBuf "file_name" ≠ typeBodies 8 c8AbsentBuf "file_name" := by
  refine ⟨?_, by decide, by decide, by decide⟩
  intro buf pos hdr f k h hf hk
  have hne : hdr.typeCode ≠ AttributeTypeCode.endOfAttributes := by
    intro he
    rw [he] at hk
    simp [typeKey] at hk
  rw [parseNextAttribute_eq buf pos hdr h hne, hf]

set_option maxRecDepth 8000 in
set_option maxHeartbeats 2000000 in
/-- Witness for C8 at the corrupted FILE_NAME attribute of c1CorruptBuf:
it is returned for appending with an explicit record. -/
theorem c8_present_but_failed_recorded_witness :
    parseNextAttribute c1CorruptBuf 48 =
      NextAttributeResult.attr AttributeTypeCode.fileName
        (some { header := c1FnHeader
                body := dispatchBody c1CorruptBuf (48 + 24) 70 AttributeTypeCode.fileName })
        (48 + 96) := by
  have h := c8_present_but_failed_recorded.1 c1CorruptBuf 48 c1FnHeader
    { valueLength := 70, valueOffset := 24, residentFlags := 0 } "file_name"
    (by decide) (by decide) (by decide)
  exact h

/-- C9: decoding is deterministic and free of hidden state: the embedding
threads the stream position and the result container explicitly, so the
outcome of a decode is a function of the raw buffer alone — two
independent decodes of byte-identical buffers return identical
DecodedEntry values. -/
theorem c9_decode_deterministic (fuel : Nat) (b1 b2 : List Nat)
    (h : ∀ i, b1.get? i = b2.get? i) :
    mftEntryParse fuel b1 = mftEntryParse fuel b2 := by
  rw [List.ext_get? h]

/-- Witness for C9: two independent decodes of c1BaseBuf coincide. -/
theorem c9_decode_deterministic_witness :
    mftEntryParse 8 c1BaseBuf = mftEntryParse 8 c1BaseBuf :=
  c9_decode_deterministic 8 c1BaseBuf c1BaseBuf (fun _ => rfl)

/-- attrAppend rewrites the lists bound to existing keys and never
changes the key sequence. -/
theorem attrAppend_keys (m : EntryAttributes) (k : String) (a : ParsedAttribute) :
    (attrAppend m k a).map Prod.fst = m.map Prod.fst := by
  unfold attrAppend
  induction m with
  | nil => rfl
  | cons p t ih =>
    simp only [List.map_cons]
    rw [ih]
    by_cases h : p.1 = k <;> simp [h]

/-- The scan loop preserves the key sequence of the attribute
container: every step either recurses on the same container or appends
under an existing key. -/
theorem scanAttributes_keys (buf : List Nat) (u : Nat) :
    ∀ (fuel pos : Nat) (acc attrs : EntryAttributes),
      scanAttributes buf u fuel pos acc = ScanResult.finished attrs →
      attrs.map Prod.fst = acc.map Prod.fst := by
  intro fuel
  induction fuel with
  | zero =>
    intro pos acc attrs h
    simp [scanAttributes] at h
  | succ k ih =>
    intro pos acc attrs h
    unfold scanAttributes at h
    split at h
    · split at h
      · simp at h
      · cases h; rfl
      · split at h
        · exact ih _ _ _ h
        · split at h
          · exact ih _ _ _ h
          · rw [ih _ _ _ h, attrAppend_keys]
    · cases h; rfl

/-- C10: every decoded entry exposes exactly the ten fixed attribute-type
keys, in the order MFTEntry.__init__ creates them, each initialized to an
empty list; the scan only appends under those keys (skipping any type code
outside the set), so the key set of the result of every successful parse
equals the initial ten. -/
theorem c10_attribute_key_set_invariant :
    (∀ (buf : List Nat) (fuel : Nat) (e : DecodedEntry),
        mftEntryParse fuel buf = ParseOutcome.entry e →
        e.attributes.map Prod.fst = initAttributes.map Prod.fst) ∧
    initAttributes.map Prod.fst =
      ["standard_information", "attribute_list", "file_name", "object_id",
       "security_descriptor", "volume_name", "volume_information", "data",
       "index_root", "index_allocation"] ∧
    (∀ p ∈ initAttributes, p.2 = ([] : List ParsedAttribute)) := by
  refine ⟨?_, by decide, by decide⟩
  intro buf fuel e h
  unfold mftEntryParse at h
  split at h
  · simp at h
  · split at h
    · simp at h
    · simp at h
    · cases h
      exact scanAttributes_keys buf _ fuel _ _ _ (by assumption)

set_option maxRecDepth 8000 in
set_option maxHeartbeats 2000000 in
/-- Witness for C10 at the concrete decode of c3ShortBuf. -/
theorem c10_attribute_key_set_invariant_witness :
    ({ header := c3Header, attributes := initAttributes } : DecodedEntry).attributes.map
        Prod.fst = initAttributes.map Prod.fst :=
  c10_attribute_key_set_invariant.1 c3ShortBuf 4
    { header := c3Header, attributes := initAttributes } (by decide)
